import Mathlib

/-!
Shallow embedding of `src/bot.py` (a Telegram gatekeeper bot) and proofs of
the behavioral claims about it.

Modelling conventions:
* Python strings are `List Char`; the payloads in this system are ASCII
  (spec section 6: the wire encoding is an ASCII string).
* `int(s)` is modelled by `pyInt` for ASCII strings without underscores;
  the handler only applies it to fragments produced by `split("_")`, which
  never contain an underscore.  (Unicode digits, accepted by CPython but
  impossible in this system's payloads, are out of scope.)
* Each handler returns the list of gateway calls it attempts, in order,
  together with a flag recording whether an uncaught exception escaped the
  handler.  The outcomes of fallible gateway calls (send message, approve,
  decline, create invite link) are supplied by a `Gateway` oracle;
  `query.answer()` and message edits are modelled as non-failing, since no
  claim depends on their failure.
-/

namespace DentistryBot

/-- An ASCII decimal digit, `'0'`..`'9'`. -/
def isDigitChar (c : Char) : Bool :=
  decide (48 ≤ c.toNat ∧ c.toNat ≤ 57)

/-- The whitespace characters stripped by Python `int()` (ASCII subset). -/
def isPySpace (c : Char) : Bool :=
  c == ' ' || c == '\t' || c == '\n' || c == '\r' ||
  c == Char.ofNat 11 || c == Char.ofNat 12

/-- Value of a big-endian list of digit characters. -/
def valDigits (l : List Char) : Nat :=
  l.foldl (fun a c => 10 * a + (c.toNat - 48)) 0

/-- Parse a nonempty all-digit string (the core of Python `int()`). -/
def parseDigits (l : List Char) : Option Nat :=
  if l ≠ [] ∧ l.all isDigitChar then some (valDigits l) else none

/-- Strip leading and trailing whitespace, as Python `int()` does. -/
def pyStrip (l : List Char) : List Char :=
  ((l.dropWhile isPySpace).reverse.dropWhile isPySpace).reverse

/-- Python `int(s)` on an ASCII, underscore-free string: optional
whitespace, optional sign, a nonempty run of decimal digits.
`none` models a raised `ValueError`. -/
def pyInt (l : List Char) : Option Int :=
  match pyStrip l with
  | [] => none
  | c :: rest =>
    if c = '-' then (parseDigits rest).map (fun n : Nat => -(n : Int))
    else if c = '+' then (parseDigits rest).map (fun n : Nat => (n : Int))
    else (parseDigits (c :: rest)).map (fun n : Nat => (n : Int))

/-- The character for the decimal digit `d`. -/
def digitToChar (d : Nat) : Char := Char.ofNat (48 + d)

/-- Decimal digits of `n` (big-endian), with explicit fuel so the
recursion is structural.  `natToChars` supplies enough fuel. -/
def natToCharsAux : Nat → Nat → List Char
  | 0, _ => []
  | _ + 1, 0 => []
  | fuel + 1, n + 1 =>
    natToCharsAux fuel ((n + 1) / 10) ++ [digitToChar ((n + 1) % 10)]

/-- Python `str(n)` for a natural number. -/
def natToChars (n : Nat) : List Char :=
  if n = 0 then ['0'] else natToCharsAux n n

/-- Python `str(i)` for an integer: a minus sign for negatives. -/
def intToChars (i : Int) : List Char :=
  if i < 0 then '-' :: natToChars i.natAbs else natToChars i.natAbs

/-- Helper for `splitOnUnderscore`: first fragment and remaining fragments. -/
def splitAux : List Char → List Char × List (List Char)
  | [] => ([], [])
  | c :: rest =>
    let r := splitAux rest
    if c = '_' then ([], r.1 :: r.2) else (c :: r.1, r.2)

/-- Python `s.split("_")`: every maximal underscore-free fragment, empty
fragments included; the empty string yields `[""]`. -/
def splitOnUnderscore (l : List Char) : List (List Char) :=
  (splitAux l).1 :: (splitAux l).2

/-- The wire encoding of a Decision Token: the action word, the user id and
the chat id joined by underscores, as the f-strings in
`send_verification_message` build it. -/
def encodeToken (action : List Char) (user_id chat_id : Int) : List Char :=
  action ++ '_' :: (intToChars user_id ++ '_' :: intToChars chat_id)

/-- The decoding performed at the top of `handle_button_press`:
`data_parts = query.data.split("_")` followed by
`data_parts[0], int(data_parts[1]), int(data_parts[2])`.
Fragments beyond the third are ignored; `none` models the uncaught
`IndexError`/`ValueError` on a malformed payload. -/
def decodeToken (data : List Char) : Option (List Char × Int × Int) :=
  match splitOnUnderscore data with
  | p0 :: p1 :: p2 :: _ =>
    match pyInt p1, pyInt p2 with
    | some u, some c => some (p0, u, c)
    | _, _ => none
  | _ => none

/-- Outcome of `context.bot.send_message` for a given recipient:
delivered, rejected with `Forbidden` (the "unreachable" condition), or
failed with some other exception. -/
inductive SendOutcome
  | ok
  | forbidden
  | err
deriving DecidableEq, Repr

/-- Outcome of `context.bot.approve_chat_join_request` for a given
`(chat_id, user_id)` pair: success, a `BadRequest` carrying the gateway's
error text, or some other exception. -/
inductive ApproveOutcome
  | ok
  | badRequest (msg : List Char)
  | err
deriving DecidableEq, Repr

/-- The external messaging gateway, as an oracle fixing the outcome of each
fallible outbound call the handlers make. -/
structure Gateway where
  sendOutcome : Int → SendOutcome
  approveOutcome : Int → Int → ApproveOutcome
  declineOk : Int → Int → Bool
  inviteLink : Int → Option (List Char)

/-- The texts the bot edits the original message to; the link message
carries the invite link it presents. -/
inductive MsgText
  | welcome
  | inviteMsg (link : List Char)
  | inviteFailed
  | genericError
  | unexpectedError
  | rejection
  | declineError
deriving DecidableEq, Repr

/-- An outbound gateway call attempted by a handler.  A `sendVerification`
call records the recipient and the two button payloads of the
verification keyboard. -/
inductive GatewayCall
  | answerCallback
  | sendVerification (recipientId : Int) (approveData declineData : List Char)
  | approve (chatId userId : Int)
  | decline (chatId userId : Int)
  | createInvite (chatId : Int) (memberLimit : Nat) (expireDate : Int)
  | edit (text : MsgText)
deriving DecidableEq, Repr

/-- What running one handler on one inbound event did: the gateway calls
attempted, in order, and whether an uncaught exception escaped. -/
structure HandlerResult where
  calls : List GatewayCall
  raised : Bool
deriving DecidableEq, Repr

/-- `send_verification_message`: one direct message to `user_id` carrying
the Yes/No keyboard whose callback payloads encode the Decision Tokens. -/
def send_verification_message (user_id chat_id : Int) : GatewayCall :=
  .sendVerification user_id
    (encodeToken ("approve".toList) user_id chat_id)
    (encodeToken ("decline".toList) user_id chat_id)

/-- Does `needle` occur as an initial segment of `hay`? -/
def startsWith : List Char → List Char → Bool
  | _, [] => true
  | [], _ :: _ => false
  | h :: hs, n :: ns => h == n && startsWith hs ns

/-- Python's substring test `needle in hay`. -/
def containsSub : List Char → List Char → Bool
  | [], needle => needle.isEmpty
  | h :: hs, needle => startsWith (h :: hs) needle || containsSub hs needle

/-- The `except BadRequest` test in `handle_button_press`: a
case-insensitive substring match against the gateway's error text,
distinguishing "no pending join request" from other bad requests. -/
def noPendingRequestMsg (msg : List Char) : Bool :=
  containsSub (msg.map Char.toLower) ("user is already a member".toList) ||
  containsSub (msg.map Char.toLower) ("request not found".toList)

/-- A user as the handlers see it (`from_user` / `effective_user`). -/
structure TgUser where
  id : Int
  isBot : Bool
deriving DecidableEq, Repr

/-- A chat as the `/start` handler sees it (`effective_chat`). -/
structure TgChat where
  id : Int
  chatType : List Char
deriving DecidableEq, Repr

/-- The fields of an update consumed by the `/start` handler;
`effective_user` and `effective_chat` may be absent (`None`). -/
structure StartUpdate where
  effectiveUser : Option TgUser
  effectiveChat : Option TgChat
deriving DecidableEq, Repr

/-- The `start` handler: ignores the command unless the sender is a
non-bot user in a private chat, otherwise sends one verification prompt
for the statically configured target chat.  `Forbidden` and all other
exceptions from the send are caught and logged, so the handler never
raises and the attempted send appears in the trace regardless. -/
def start (targetChatId : Int) (u : StartUpdate) : List GatewayCall :=
  match u.effectiveUser, u.effectiveChat with
  | some user, some chat =>
    if user.isBot then []
    else if chat.chatType ≠ "private".toList then []
    else [send_verification_message user.id targetChatId]
  | _, _ => []

/-- The join-request event payload used by `handle_join_request`. -/
structure ChatJoinRequest where
  userId : Int
  chatId : Int
deriving DecidableEq, Repr

/-- `handle_join_request`: sends the verification prompt; if and only if
the send is rejected with `Forbidden` it approves the pending request
directly.  Only `Forbidden` is caught: any other send failure, and any
failure of the fallback approve itself, escapes the handler. -/
def handle_join_request (gw : Gateway) (req : Option ChatJoinRequest) :
    HandlerResult :=
  match req with
  | none => ⟨[], false⟩
  | some r =>
    match gw.sendOutcome r.userId with
    | .ok => ⟨[send_verification_message r.userId r.chatId], false⟩
    | .forbidden =>
      match gw.approveOutcome r.chatId r.userId with
      | .ok =>
        ⟨[send_verification_message r.userId r.chatId,
          .approve r.chatId r.userId], false⟩
      | _ =>
        ⟨[send_verification_message r.userId r.chatId,
          .approve r.chatId r.userId], true⟩
    | .err => ⟨[send_verification_message r.userId r.chatId], true⟩

/-- The callback-query event consumed by `handle_button_press`:
the pressing account's id and the opaque payload.  The handler never
consults `fromUserId` (no identity check survives in this iteration). -/
structure CallbackQuery where
  fromUserId : Int
  data : List Char
deriving DecidableEq, Repr

/-- `handle_button_press`: acknowledges the callback, decodes the payload,
then approves (with the invite-link fallback when the gateway reports no
pending request) or declines, editing the message to a terminal text.
`now` models `datetime.datetime.now()` in seconds, so the invite link
expiry `now + 3600` is one hour ahead.  A payload that fails to decode
raises out of the handler after the acknowledgement. -/
def handle_button_press (gw : Gateway) (now : Int) (q : CallbackQuery) :
    HandlerResult :=
  match decodeToken q.data with
  | none => ⟨[.answerCallback], true⟩
  | some (action, user_id, chat_id) =>
    if action = "approve".toList then
      match gw.approveOutcome chat_id user_id with
      | .ok =>
        ⟨[.answerCallback, .approve chat_id user_id, .edit .welcome], false⟩
      | .badRequest msg =>
        if noPendingRequestMsg msg then
          match gw.inviteLink chat_id with
          | some link =>
            ⟨[.answerCallback, .approve chat_id user_id,
              .createInvite chat_id 1 (now + 3600),
              .edit (.inviteMsg link)], false⟩
          | none =>
            ⟨[.answerCallback, .approve chat_id user_id,
              .createInvite chat_id 1 (now + 3600),
              .edit .inviteFailed], false⟩
        else
          ⟨[.answerCallback, .approve chat_id user_id,
            .edit .genericError], false⟩
      | .err =>
        ⟨[.answerCallback, .approve chat_id user_id,
          .edit .unexpectedError], false⟩
    else if action = "decline".toList then
      if gw.declineOk chat_id user_id then
        ⟨[.answerCallback, .decline chat_id user_id, .edit .rejection], false⟩
      else
        ⟨[.answerCallback, .decline chat_id user_id,
          .edit .declineError], false⟩
    else
      ⟨[.answerCallback], false⟩

/-- Is this call an approve call? -/
def isApproveCall : GatewayCall → Bool
  | .approve _ _ => true
  | _ => false

/-- Is this call a decline call? -/
def isDeclineCall : GatewayCall → Bool
  | .decline _ _ => true
  | _ => false

/-- Is this call an invite-link creation call? -/
def isInviteCall : GatewayCall → Bool
  | .createInvite _ _ _ => true
  | _ => false

/-- Is this call a message edit? -/
def isEditCall : GatewayCall → Bool
  | .edit _ => true
  | _ => false

/-- The Decision Tokens a trace brings into existence.  Per the data model
(spec section 3) a token is created when the verification prompt carrying
it is sent; a send the gateway rejects delivers no prompt, so its keyboard
payloads never exist as pressable buttons. -/
def createdTokens (gw : Gateway) (calls : List GatewayCall) :
    List (List Char) :=
  calls.foldr
    (fun c acc =>
      match c with
      | .sendVerification r a d =>
        match gw.sendOutcome r with
        | .ok => a :: d :: acc
        | _ => acc
      | _ => acc)
    []

/-- A gateway on which every call succeeds. -/
def gwAllOk : Gateway :=
  ⟨fun _ => .ok, fun _ _ => .ok, fun _ _ => true,
   fun _ => some ("https://t.me/+ok".toList)⟩

/-- A gateway on which approving fails with the "request not found" bad
request and invite-link creation succeeds. -/
def gwNoPending : Gateway :=
  ⟨fun _ => .ok,
   fun _ _ => .badRequest ("Bad Request: request not found".toList),
   fun _ _ => true,
   fun _ => some ("https://t.me/+abc".toList)⟩

/-- A gateway on which every direct message is rejected with `Forbidden`
and approving succeeds. -/
def gwUnreachable : Gateway :=
  ⟨fun _ => .forbidden, fun _ _ => .ok, fun _ _ => true, fun _ => none⟩

theorem digitToChar_toNat : ∀ d, d < 10 → (digitToChar d).toNat = 48 + d := by
  decide

theorem isDigitChar_digitToChar : ∀ d, d < 10 → isDigitChar (digitToChar d) = true := by
  decide

theorem toNat_of_isDigitChar {c : Char} (h : isDigitChar c = true) :
    48 ≤ c.toNat ∧ c.toNat ≤ 57 :=
  of_decide_eq_true h

theorem ne_of_isDigitChar {c d : Char} (h : isDigitChar c = true)
    (hd : d.toNat < 48 ∨ 57 < d.toNat) : c ≠ d := by
  intro hcd
  subst hcd
  have := toNat_of_isDigitChar h
  omega

theorem isPySpace_eq_false_of_isDigitChar {c : Char} (h : isDigitChar c = true) :
    isPySpace c = false := by
  have hb := toNat_of_isDigitChar h
  unfold isPySpace
  simp only [Bool.or_eq_false_iff, beq_eq_false_iff_ne]
  refine ⟨⟨⟨⟨⟨?_, ?_⟩, ?_⟩, ?_⟩, ?_⟩, ?_⟩ <;>
    (intro hc; subst hc; exact absurd hb (by decide))

theorem isPySpace_minus : isPySpace '-' = false := by decide

theorem valDigits_append (l : List Char) (c : Char) :
    valDigits (l ++ [c]) = 10 * valDigits l + (c.toNat - 48) := by
  unfold valDigits
  rw [List.foldl_append]
  rfl

theorem natToCharsAux_all_digit :
    ∀ fuel n, ∀ c ∈ natToCharsAux fuel n, isDigitChar c = true := by
  intro fuel
  induction fuel with
  | zero => intro n c hc; simp [natToCharsAux] at hc
  | succ f ih =>
    intro n c hc
    cases n with
    | zero => simp [natToCharsAux] at hc
    | succ m =>
      simp only [natToCharsAux, List.mem_append, List.mem_singleton] at hc
      rcases hc with hc | hc
      · exact ih _ c hc
      · subst hc
        exact isDigitChar_digitToChar _ (Nat.mod_lt _ (by omega))

theorem valDigits_natToCharsAux :
    ∀ fuel n, n ≤ fuel → valDigits (natToCharsAux fuel n) = n := by
  intro fuel
  induction fuel with
  | zero => intro n hn; interval_cases n; rfl
  | succ f ih =>
    intro n hn
    cases n with
    | zero => rfl
    | succ m =>
      have hdiv : (m + 1) / 10 < m + 1 := Nat.div_lt_self (by omega) (by omega)
      rw [natToCharsAux, valDigits_append, ih _ (by omega),
        digitToChar_toNat _ (Nat.mod_lt _ (by omega))]
      omega

theorem natToCharsAux_ne_nil :
    ∀ fuel n, 0 < n → n ≤ fuel → natToCharsAux fuel n ≠ [] := by
  intro fuel n h1 h2
  cases fuel with
  | zero => omega
  | succ f =>
    cases n with
    | zero => omega
    | succ m => simp [natToCharsAux]

theorem natToChars_all_digit (n : Nat) :
    ∀ c ∈ natToChars n, isDigitChar c = true := by
  intro c hc
  unfold natToChars at hc
  by_cases h : n = 0
  · rw [if_pos h] at hc
    simp only [List.mem_singleton] at hc
    subst hc; decide
  · rw [if_neg h] at hc
    exact natToCharsAux_all_digit n n c hc

theorem parseDigits_natToChars (n : Nat) : parseDigits (natToChars n) = some n := by
  unfold parseDigits
  rw [if_pos]
  · congr 1
    unfold natToChars
    by_cases h : n = 0
    · subst h; decide
    · rw [if_neg h]
      exact valDigits_natToCharsAux n n le_rfl
  · constructor
    · unfold natToChars
      by_cases h : n = 0
      · subst h; decide
      · rw [if_neg h]
        exact natToCharsAux_ne_nil n n (by omega) le_rfl
    · rw [List.all_eq_true]
      exact natToChars_all_digit n

theorem dropWhile_eq_self_of (p : Char → Bool) (l : List Char)
    (h : ∀ c ∈ l, p c = false) : l.dropWhile p = l := by
  cases l with
  | nil => rfl
  | cons a t => simp [List.dropWhile_cons, h a (List.mem_cons_self a t)]

theorem pyStrip_eq_self (l : List Char) (h : ∀ c ∈ l, isPySpace c = false) :
    pyStrip l = l := by
  unfold pyStrip
  rw [dropWhile_eq_self_of _ _ h,
    dropWhile_eq_self_of _ _ (fun c hc => h c (List.mem_reverse.mp hc)),
    List.reverse_reverse]

theorem mem_intToChars (i : Int) :
    ∀ c ∈ intToChars i, isDigitChar c = true ∨ c = '-' := by
  intro c hc
  unfold intToChars at hc
  by_cases h : i < 0
  · rw [if_pos h] at hc
    rcases List.mem_cons.mp hc with hc | hc
    · exact Or.inr hc
    · exact Or.inl (natToChars_all_digit _ c hc)
  · rw [if_neg h] at hc
    exact Or.inl (natToChars_all_digit _ c hc)

theorem intToChars_no_space (i : Int) :
    ∀ c ∈ intToChars i, isPySpace c = false := by
  intro c hc
  rcases mem_intToChars i c hc with h | h
  · exact isPySpace_eq_false_of_isDigitChar h
  · subst h; exact isPySpace_minus

theorem intToChars_no_underscore (i : Int) : ∀ c ∈ intToChars i, c ≠ '_' := by
  intro c hc
  rcases mem_intToChars i c hc with h | h
  · exact ne_of_isDigitChar h (by decide)
  · subst h; decide

theorem pyInt_intToChars (i : Int) : pyInt (intToChars i) = some i := by
  by_cases hneg : i < 0
  · have hub : intToChars i = '-' :: natToChars i.natAbs := if_pos hneg
    unfold pyInt
    rw [hub, pyStrip_eq_self _ (hub ▸ intToChars_no_space i)]
    simp only [if_pos rfl, parseDigits_natToChars, Option.map_some',
      Option.some.injEq, if_true, eq_self_iff_true]
    omega
  · have hub : intToChars i = natToChars i.natAbs := if_neg hneg
    by_cases hz : i = 0
    · subst hz; decide
    · have hpos : 0 < i.natAbs := by omega
      have hne : natToChars i.natAbs ≠ [] := by
        unfold natToChars
        rw [if_neg (by omega)]
        exact natToCharsAux_ne_nil _ _ hpos le_rfl
      obtain ⟨c, cs, hcons⟩ := List.exists_cons_of_ne_nil hne
      have hcdig : isDigitChar c = true :=
        natToChars_all_digit i.natAbs c (by rw [hcons]; exact List.mem_cons_self c cs)
      have hc1 : ¬(c = '-') := ne_of_isDigitChar hcdig (by decide)
      have hc2 : ¬(c = '+') := ne_of_isDigitChar hcdig (by decide)
      unfold pyInt
      rw [hub, pyStrip_eq_self _ (hub ▸ intToChars_no_space i), hcons]
      simp only [hc1, hc2, if_false, ← hcons, parseDigits_natToChars,
        Option.map_some', Option.some.injEq]
      omega

theorem splitAux_no_underscore (l : List Char) (h : ∀ c ∈ l, c ≠ '_') :
    splitAux l = (l, []) := by
  induction l with
  | nil => rfl
  | cons c t ih =>
    have h1 : c ≠ '_' := h c (List.mem_cons_self c t)
    have h2 : ∀ x ∈ t, x ≠ '_' := fun x hx => h x (List.mem_cons_of_mem c hx)
    simp [splitAux, ih h2, h1]

theorem splitAux_append (a r : List Char) (h : ∀ c ∈ a, c ≠ '_') :
    splitAux (a ++ '_' :: r) = (a, (splitAux r).1 :: (splitAux r).2) := by
  induction a with
  | nil => simp [splitAux]
  | cons c t ih =>
    have h1 : c ≠ '_' := h c (List.mem_cons_self c t)
    have h2 : ∀ x ∈ t, x ≠ '_' := fun x hx => h x (List.mem_cons_of_mem c hx)
    simp [splitAux, ih h2, h1]

theorem splitOnUnderscore_encodeToken (action : List Char)
    (h : ∀ c ∈ action, c ≠ '_') (u c : Int) :
    splitOnUnderscore (encodeToken action u c) =
      [action, intToChars u, intToChars c] := by
  unfold splitOnUnderscore encodeToken
  rw [splitAux_append _ _ h, splitAux_append _ _ (intToChars_no_underscore u),
    splitAux_no_underscore _ (intToChars_no_underscore c)]

theorem decodeToken_encodeToken (action : List Char)
    (h : ∀ c ∈ action, c ≠ '_') (u c : Int) :
    decodeToken (encodeToken action u c) = some (action, u, c) := by
  unfold decodeToken
  rw [splitOnUnderscore_encodeToken action h u c]
  simp [pyInt_intToChars]

/-- Claim C9: on every button-press event, `handle_button_press` issues the
callback acknowledgement as its first gateway call, before any approve,
decline, invite-link or edit call, whatever the payload and whatever the
gateway outcomes. -/
theorem callback_acknowledged_first (gw : Gateway) (now : Int)
    (q : CallbackQuery) :
    (handle_button_press gw now q).calls.head? =
      some GatewayCall.answerCallback := by
  unfold handle_button_press
  repeat' split
  all_goals rfl

/-- Claim C3: an approve press whose token decodes to `(user_id, chat_id)`,
when the gateway approve succeeds, yields exactly the acknowledgement, one
approve call and the welcome edit: one approve call, no invite-link call. -/
theorem approve_with_pending_request (gw : Gateway) (now : Int)
    (q : CallbackQuery) (user_id chat_id : Int)
    (hdec : decodeToken q.data = some ("approve".toList, user_id, chat_id))
    (hok : gw.approveOutcome chat_id user_id = .ok) :
    handle_button_press gw now q =
      ⟨[.answerCallback, .approve chat_id user_id, .edit .welcome], false⟩ ∧
    (handle_button_press gw now q).calls.countP isApproveCall = 1 ∧
    (handle_button_press gw now q).calls.countP isInviteCall = 0 := by
  have hres : handle_button_press gw now q =
      ⟨[.answerCallback, .approve chat_id user_id, .edit .welcome], false⟩ := by
    simp [handle_button_press, hdec, hok]
  exact ⟨hres, by rw [hres]; rfl, by rw [hres]; rfl⟩

/-- Witness for claim C3 at a concrete input: approving token
`approve_111_-500` on a gateway whose approve succeeds. -/
theorem approve_with_pending_request_witness :
    handle_button_press gwAllOk 0 ⟨111, "approve_111_-500".toList⟩ =
      ⟨[.answerCallback, .approve (-500) 111, .edit .welcome], false⟩ ∧
    (handle_button_press gwAllOk 0
      ⟨111, "approve_111_-500".toList⟩).calls.countP isApproveCall = 1 ∧
    (handle_button_press gwAllOk 0
      ⟨111, "approve_111_-500".toList⟩).calls.countP isInviteCall = 0 :=
  approve_with_pending_request gwAllOk 0 ⟨111, "approve_111_-500".toList⟩
    111 (-500) (by decide) rfl

/-- Claim C2: an approve press whose token decodes to `(user_id, chat_id)`,
when the gateway rejects the approve with the "no pending join request"
bad-request text and link creation succeeds, yields exactly one failed
approve attempt, then exactly one invite-link creation for that chat with
`member_limit = 1` expiring one hour from now, and the edit presenting
that link. -/
theorem approve_without_pending_request (gw : Gateway) (now : Int)
    (q : CallbackQuery) (user_id chat_id : Int) (msg link : List Char)
    (hdec : decodeToken q.data = some ("approve".toList, user_id, chat_id))
    (hbad : gw.approveOutcome chat_id user_id = .badRequest msg)
    (hmsg : noPendingRequestMsg msg = true)
    (hlink : gw.inviteLink chat_id = some link) :
    handle_button_press gw now q =
      ⟨[.answerCallback, .approve chat_id user_id,
        .createInvite chat_id 1 (now + 3600), .edit (.inviteMsg link)],
        false⟩ ∧
    (handle_button_press gw now q).calls.countP isApproveCall = 1 ∧
    (handle_button_press gw now q).calls.countP isInviteCall = 1 := by
  have hres : handle_button_press gw now q =
      ⟨[.answerCallback, .approve chat_id user_id,
        .createInvite chat_id 1 (now + 3600), .edit (.inviteMsg link)],
        false⟩ := by
    simp [handle_button_press, hdec, hbad, hmsg, hlink]
  exact ⟨hres, by rw [hres]; rfl, by rw [hres]; rfl⟩

/-- Witness for claim C2 at a concrete input: the `/start`-flow scenario,
token `approve_222_-999`, gateway answering "request not found". -/
theorem approve_without_pending_request_witness :
    handle_button_press gwNoPending 0 ⟨222, "approve_222_-999".toList⟩ =
      ⟨[.answerCallback, .approve (-999) 222,
        .createInvite (-999) 1 (0 + 3600),
        .edit (.inviteMsg ("https://t.me/+abc".toList))], false⟩ ∧
    (handle_button_press gwNoPending 0
      ⟨222, "approve_222_-999".toList⟩).calls.countP isApproveCall = 1 ∧
    (handle_button_press gwNoPending 0
      ⟨222, "approve_222_-999".toList⟩).calls.countP isInviteCall = 1 :=
  approve_without_pending_request gwNoPending 0
    ⟨222, "approve_222_-999".toList⟩ 222 (-999)
    ("Bad Request: request not found".toList) ("https://t.me/+abc".toList)
    (by decide) rfl (by decide) rfl

/-- Claim C6: a decline press never leads to an invite-link creation call,
whether the gateway decline succeeds or fails. -/
theorem decline_never_creates_invite (gw : Gateway) (now : Int)
    (q : CallbackQuery) (user_id chat_id : Int)
    (hdec : decodeToken q.data = some ("decline".toList, user_id, chat_id)) :
    (handle_button_press gw now q).calls.countP isInviteCall = 0 := by
  cases h : gw.declineOk chat_id user_id <;>
    simp [handle_button_press, hdec, h, isInviteCall, List.countP_cons]

/-- Witness for claim C6 at a concrete input: token `decline_111_-500`. -/
theorem decline_never_creates_invite_witness :
    (handle_button_press gwAllOk 0
      ⟨111, "decline_111_-500".toList⟩).calls.countP isInviteCall = 0 :=
  decline_never_creates_invite gwAllOk 0 ⟨111, "decline_111_-500".toList⟩
    111 (-500) (by decide)

/-- Claim C10: a payload that splits into at least three fragments with
integer second and third fragments but an unknown action word leads to the
acknowledgement and nothing else: no gateway call, no edit, no exception.
Fragments beyond the third are ignored by the decoding. -/
theorem unknown_action_is_silent_noop (gw : Gateway) (now : Int)
    (q : CallbackQuery) (action : List Char) (user_id chat_id : Int)
    (hdec : decodeToken q.data = some (action, user_id, chat_id))
    (ha : action ≠ "approve".toList) (hd : action ≠ "decline".toList) :
    handle_button_press gw now q = ⟨[.answerCallback], false⟩ := by
  simp only [handle_button_press, hdec]
  rw [if_neg ha, if_neg hd]

/-- Witness for claim C10 at a concrete input: payload `foo_1_2_junk`
decodes (fourth fragment ignored) to the unknown action `foo` and the
handler only acknowledges. -/
theorem unknown_action_is_silent_noop_witness :
    handle_button_press gwAllOk 0 ⟨3, "foo_1_2_junk".toList⟩ =
      ⟨[.answerCallback], false⟩ :=
  unknown_action_is_silent_noop gwAllOk 0 ⟨3, "foo_1_2_junk".toList⟩
    ("foo".toList) 1 2 (by decide) (by decide) (by decide)

/-- Counterexample to claim C4 as stated: on the malformed payload
`approve_111` (only two fragments) the handler acknowledges and performs
no further action, but the parse error escapes the handler
(`raised = true`), contradicting the claim that no parse error propagates
out of the handler. -/
theorem malformed_payload_raises_on_short_token :
    handle_button_press gwAllOk 0 ⟨7, "approve_111".toList⟩ =
      ⟨[.answerCallback], true⟩ := by
  decide

/-- Claim C4 as amended: on every payload that fails to decode (fewer than
three fragments, or a non-integer second or third fragment) the handler
acknowledges the press and performs no approve, decline, invite-link or
edit call, but the parse error is not caught and propagates out of the
handler. -/
theorem malformed_payload_acks_then_raises (gw : Gateway) (now : Int)
    (q : CallbackQuery) (hdec : decodeToken q.data = none) :
    handle_button_press gw now q = ⟨[.answerCallback], true⟩ := by
  simp [handle_button_press, hdec]

/-- Witness for amended claim C4 at a concrete input: the payload
`garbage` has a single fragment and fails to decode. -/
theorem malformed_payload_acks_then_raises_witness :
    handle_button_press gwAllOk 0 ⟨7, "garbage".toList⟩ =
      ⟨[.answerCallback], true⟩ :=
  malformed_payload_acks_then_raises gwAllOk 0 ⟨7, "garbage".toList⟩
    (by decide)

/-- Claim C5: for every valid Decision Token (action `approve` or
`decline`, any integer user id and chat id, negative chat ids included)
decoding the wire string and re-encoding the decoded triple yields the
identical string. -/
theorem decision_token_roundtrip (action : List Char) (user_id chat_id : Int)
    (h : action = "approve".toList ∨ action = "decline".toList) :
    (decodeToken (encodeToken action user_id chat_id)).map
      (fun t => encodeToken t.1 t.2.1 t.2.2) =
      some (encodeToken action user_id chat_id) := by
  have hna : ∀ c ∈ action, c ≠ '_' := by
    rcases h with h | h <;> (subst h; decide)
  rw [decodeToken_encodeToken action hna, Option.map_some']

/-- Witness for claim C5 at a concrete input: the token
`approve_111_-500` round-trips. -/
theorem decision_token_roundtrip_witness :
    (decodeToken (encodeToken ("approve".toList) 111 (-500))).map
      (fun t => encodeToken t.1 t.2.1 t.2.2) =
      some (encodeToken ("approve".toList) 111 (-500)) :=
  decision_token_roundtrip ("approve".toList) 111 (-500) (Or.inl rfl)

/-- Claim C1 fails on the code: account 999 presses the button carrying
token `approve_111_-500`, whose encoded user id 111 differs from 999, yet
the handler still performs one approve call — it never consults the
pressing account's id.  The spec (section 7) requires this press to be
rejected with zero approve calls. -/
theorem press_by_other_user_still_approves :
    (handle_button_press gwAllOk 0
      ⟨999, "approve_111_-500".toList⟩).calls.countP isApproveCall = 1 ∧
    (999 : Int) ≠ 111 := by
  decide

/-- Claim C7: a `/start` command from an account flagged as a bot, or from
a non-private chat, makes the handler return with zero outbound calls. -/
theorem start_ignores_bots_and_groups (targetChatId : Int) (user : TgUser)
    (chat : TgChat)
    (h : user.isBot = true ∨ chat.chatType ≠ "private".toList) :
    start targetChatId ⟨some user, some chat⟩ = [] := by
  rcases h with h | h
  · simp [start, h]
  · by_cases hb : user.isBot = true
    · simp [start, hb]
    · simp only [start, hb, if_false, Bool.false_eq_true]
      rw [if_pos h]

/-- Witness for claim C7 at a concrete input: a bot account in a private
chat is ignored. -/
theorem start_ignores_bots_and_groups_witness :
    start (-999) ⟨some ⟨5, true⟩, some ⟨5, "private".toList⟩⟩ = [] :=
  start_ignores_bots_and_groups (-999) ⟨5, true⟩ ⟨5, "private".toList⟩
    (Or.inl rfl)

/-- Claim C8: when the verification prompt send is rejected as unreachable
(`Forbidden`), `handle_join_request` approves the pending request for that
`(chat_id, user_id)` pair directly; the failed send delivers no prompt, so
no Decision Token is ever created; and no branch of this handler ever
makes a decline call. -/
theorem join_request_unreachable_auto_approves (gw : Gateway)
    (req : Option ChatJoinRequest) (r : ChatJoinRequest)
    (hf : gw.sendOutcome r.userId = .forbidden) :
    (handle_join_request gw req).calls.countP isDeclineCall = 0 ∧
    (handle_join_request gw (some r)).calls =
      [send_verification_message r.userId r.chatId,
       .approve r.chatId r.userId] ∧
    createdTokens gw (handle_join_request gw (some r)).calls = [] := by
  have hcalls : (handle_join_request gw (some r)).calls =
      [send_verification_message r.userId r.chatId,
       .approve r.chatId r.userId] := by
    cases ha : gw.approveOutcome r.chatId r.userId <;>
      simp [handle_join_request, hf, ha]
  refine ⟨?_, hcalls, ?_⟩
  · rcases req with _ | r'
    · rfl
    · cases hs : gw.sendOutcome r'.userId
      · simp [handle_join_request, hs, isDeclineCall,
          send_verification_message, List.countP_cons]
      · cases ha : gw.approveOutcome r'.chatId r'.userId <;>
          simp [handle_join_request, hs, ha, isDeclineCall,
            send_verification_message, List.countP_cons]
      · simp [handle_join_request, hs, isDeclineCall,
          send_verification_message, List.countP_cons]
  · rw [hcalls]
    simp [createdTokens, send_verification_message, hf]

/-- Witness for claim C8 at a concrete input: join request of user 111
for chat -500 on a gateway that rejects every direct message. -/
theorem join_request_unreachable_auto_approves_witness :
    (handle_join_request gwUnreachable
      (some ⟨111, -500⟩)).calls.countP isDeclineCall = 0 ∧
    (handle_join_request gwUnreachable (some ⟨111, -500⟩)).calls =
      [send_verification_message 111 (-500), .approve (-500) 111] ∧
    createdTokens gwUnreachable
      (handle_join_request gwUnreachable (some ⟨111, -500⟩)).calls = [] :=
  join_request_unreachable_auto_approves gwUnreachable (some ⟨111, -500⟩)
    ⟨111, -500⟩ rfl

end DentistryBot
